import Mathlib

/-!
Verification development for a natural-language-to-SQL chat service.
The repository has two pipeline variants: a primary one (`main.py`, embedded
in namespace `Main`) and a classifier-enabled one (`test2.py`, embedded in
namespace `Test2`).  Python strings are modelled as `List Char`; the LLM
capability and the database driver are oracles: each outbound call's outcome
(a reply text, or a raised exception carrying a message) is a parameter of
the embedded function, and the embedding records a trace of the driver/stage
calls it performs so that claims about which stages run are statable.
-/

/-- Python strings, modelled as lists of characters. -/
abbrev PyStr := List Char

/-- The whitespace characters removed by Python's default `str.strip`. -/
def isPySpace (c : Char) : Bool :=
  c = ' ' || c = '\t' || c = '\n' || c = '\r' || c = '\x0b' || c = '\x0c'

/-- Python `s.strip()`: remove whitespace from both ends. -/
def pyStrip (s : PyStr) : PyStr :=
  ((s.dropWhile isPySpace).reverse.dropWhile isPySpace).reverse

/-- Python `s.upper()` (ASCII case mapping suffices for the SQL keyword check). -/
def pyUpper (s : PyStr) : PyStr := s.map Char.toUpper

/-- Python `s.lower()` (ASCII case mapping suffices for the SQL keyword check). -/
def pyLower (s : PyStr) : PyStr := s.map Char.toLower

/-- Fuelled worker for `pyReplace`; the fuel is the length of the subject
string, which bounds the number of steps since every step consumes at least
one character of the subject. -/
def pyReplaceFuel (pat repl : PyStr) : Nat → PyStr → PyStr
  | _, [] => []
  | 0, s => s
  | fuel + 1, c :: cs =>
    if !pat.isEmpty && pat.isPrefixOf (c :: cs) then
      repl ++ pyReplaceFuel pat repl fuel (List.drop (pat.length - 1) cs)
    else
      c :: pyReplaceFuel pat repl fuel cs

/-- Python `s.replace(pat, repl)`: replace every non-overlapping occurrence
of `pat` in `s`, left to right, without rescanning the replacement.  (The
sources only ever call `replace` with the non-empty patterns given in the
fence-stripping code, so the empty-pattern case is irrelevant here.) -/
def pyReplace (s pat repl : PyStr) : PyStr := pyReplaceFuel pat repl s.length s

/-- Exceptions raised by the database driver, split the way `main.py`'s
`except` clauses split them: `SQLAlchemyError` versus any other exception.
The payload is the exception's message (`str(e)`). -/
inductive DBExc where
  | sqlalchemy : PyStr → DBExc
  | other : PyStr → DBExc
deriving DecidableEq

/-- What a successful `conn.execute(text(sql))` makes available on its result
object: the rows `fetchall` would return, the column names `keys()` would
return, and the driver's `rowcount`. -/
structure DBResult (α : Type) where
  rows : List (List α)
  columns : List PyStr
  rowcount : Int

/-- The database-connection oracle: the outcome of `conn.execute` on a given
SQL text, and the outcome of `conn.commit()`. -/
structure DBConn (α : Type) where
  execRes : PyStr → Except DBExc (DBResult α)
  commitRes : Except DBExc Unit

/-- The executor's output shape: a list of ordered column-to-value mappings
(`df.to_dict(orient="records")`), a status dictionary with a "message" key,
or a dictionary with an "error" key. -/
inductive QueryResult (α : Type) where
  | records : List (List (PyStr × α)) → QueryResult α
  | message : PyStr → QueryResult α
  | error : PyStr → QueryResult α
deriving DecidableEq

/-- True exactly on the error-descriptor shape. -/
def QueryResult.isError {α : Type} : QueryResult α → Bool
  | .error _ => true
  | _ => false

/-- True exactly on the two non-error shapes (row records or status record). -/
def QueryResult.isOk {α : Type} : QueryResult α → Bool
  | .records _ => true
  | .message _ => true
  | .error _ => false

/-- Driver-level operations the executor may perform, recorded as a trace. -/
inductive DBOp where
  | executeOp : PyStr → DBOp
  | fetchallOp : DBOp
  | keysOp : DBOp
  | commitOp : DBOp
deriving DecidableEq

/-- pandas `DataFrame(rows, columns=columns).to_dict(orient="records")`:
each row becomes an ordered mapping pairing the column names, in result-set
order, with the row's values. -/
def toRecords {α : Type} (columns : List PyStr) (rows : List (List α)) :
    List (List (PyStr × α)) :=
  rows.map (fun row => columns.zip row)

namespace Main

/-- The `except` clauses of `main.py`'s `execute_sql_query`: a
`SQLAlchemyError` becomes "SQL execution error: ...", anything else becomes
"Unexpected error: ...". -/
def sqlExcMessage : DBExc → PyStr
  | .sqlalchemy m => "SQL execution error: ".data ++ m
  | .other m => "Unexpected error: ".data ++ m

/-- The branch condition `sql_query.strip().upper().startswith('SELECT')`. -/
def isSelectQuery (sql_query : PyStr) : Bool :=
  "SELECT".data.isPrefixOf (pyUpper (pyStrip sql_query))

/-- The status dictionary's message for the non-SELECT branch. -/
def rowsAffectedMessage (rowcount : Int) : PyStr :=
  "Query executed successfully. Rows affected: ".data ++ (toString rowcount).data

/-- Embedding of `main.py`'s `execute_sql_query(engine, sql_query)`, paired
with the trace of driver operations it performs.  Every driver exception is
caught by the surrounding `try` and converted by `sqlExcMessage`. -/
def execute_sql_query {α : Type} (conn : DBConn α) (sql_query : PyStr) :
    QueryResult α × List DBOp :=
  match conn.execRes sql_query with
  | .error e => (.error (sqlExcMessage e), [.executeOp sql_query])
  | .ok result =>
    if isSelectQuery sql_query then
      (.records (toRecords result.columns result.rows),
       [.executeOp sql_query, .fetchallOp, .keysOp])
    else
      match conn.commitRes with
      | .error e => (.error (sqlExcMessage e), [.executeOp sql_query, .commitOp])
      | .ok _ =>
        (.message (rowsAffectedMessage result.rowcount),
         [.executeOp sql_query, .commitOp])

/-- Embedding of `main.py`'s `generate_sql_query`.  The oracle argument is
the outcome of `llm.invoke(prompt)`: the reply's `content`, or the raised
exception's message.  On success the reply is stripped and, when it starts
with a markdown fence, the fence markers are removed; on exception the
function returns `None`. -/
def generate_sql_query (llm : Except PyStr PyStr) : Option PyStr :=
  match llm with
  | .error _ => none
  | .ok content =>
    let sql_query := pyStrip content
    if "```sql".data.isPrefixOf sql_query then
      some (pyStrip (pyReplace (pyReplace sql_query ("```sql".data) []) ("```".data) []))
    else if "```".data.isPrefixOf sql_query then
      some (pyStrip (pyReplace sql_query ("```".data) []))
    else
      some sql_query

/-- Embedding of `main.py`'s `generate_natural_response`: returns the LLM
reply's content, or on exception the string
`"Error generating response: " + str(e)`. -/
def generate_natural_response (llm : Except PyStr PyStr) : PyStr :=
  match llm with
  | .ok content => content
  | .error e => "Error generating response: ".data ++ e

/-- Pipeline stages recorded by the `chat` handler's trace. -/
inductive PipeEv where
  | genCall : PipeEv
  | execCall : PyStr → PipeEv
  | narrCall : PipeEv
deriving DecidableEq

/-- The HTTP-visible outcome of `main.py`'s `/api/chat` handler: a 200
success body `{question, sql_query, results, response}`, or a raised
`HTTPException` with a status code and detail string. -/
inductive ChatOutcome (α : Type) where
  | success : PyStr → PyStr → QueryResult α → PyStr → ChatOutcome α
  | httpError : Nat → PyStr → ChatOutcome α
deriving DecidableEq

/-- The per-request oracle environment for `main.py`: whether the global
`engine` is initialized, and the outcomes of the three outbound calls the
request may make (SQL-generation LLM call, database driver, narration LLM
call). -/
structure Env (α : Type) where
  engineOk : Bool
  llmGen : Except PyStr PyStr
  conn : DBConn α
  llmNarr : Except PyStr PyStr

/-- The test `isinstance(query_results, dict) and "error" in query_results`:
only the error-descriptor shape is a dict with an "error" key; its presence
raises regardless of the message's content. -/
def errDetail {α : Type} : QueryResult α → Option PyStr
  | .error m => some m
  | _ => none

/-- Embedding of `main.py`'s `chat` handler, paired with the trace of
pipeline stages that ran. -/
def chat {α : Type} (env : Env α) (message : PyStr) :
    ChatOutcome α × List PipeEv :=
  if env.engineOk = false then
    (.httpError 500 ("Database connection not initialized. Check server logs for details.".data), [])
  else
    match generate_sql_query env.llmGen with
    | none => (.httpError 500 ("Failed to generate SQL query".data), [.genCall])
    | some sql_query =>
      if sql_query.isEmpty then
        (.httpError 500 ("Failed to generate SQL query".data), [.genCall])
      else
        match errDetail (execute_sql_query env.conn sql_query).1 with
        | some m => (.httpError 500 m, [.genCall, .execCall sql_query])
        | none =>
          (.success message sql_query (execute_sql_query env.conn sql_query).1
             (generate_natural_response env.llmNarr),
           [.genCall, .execCall sql_query, .narrCall])

end Main

namespace Test2

/-- The single `except Exception` clause of `test2.py`'s `execute_sql_query`
returns `{"error": str(e)}` — the raw exception message, with no prefix. -/
def excStr : DBExc → PyStr
  | .sqlalchemy m => m
  | .other m => m

/-- The branch condition `sql_query.strip().lower().startswith("select")`. -/
def isSelectQuery (sql_query : PyStr) : Bool :=
  "select".data.isPrefixOf (pyLower (pyStrip sql_query))

/-- Embedding of `test2.py`'s `execute_sql_query(sql_query)`, paired with
the trace of driver operations it performs. -/
def execute_sql_query {α : Type} (conn : DBConn α) (sql_query : PyStr) :
    QueryResult α × List DBOp :=
  match conn.execRes sql_query with
  | .error e => (.error (excStr e), [.executeOp sql_query])
  | .ok result =>
    if isSelectQuery sql_query then
      (.records (toRecords result.columns result.rows),
       [.executeOp sql_query, .fetchallOp, .keysOp])
    else
      match conn.commitRes with
      | .error e => (.error (excStr e), [.executeOp sql_query, .commitOp])
      | .ok _ =>
        (.message ("Query executed. Rows affected: ".data ++ (toString result.rowcount).data),
         [.executeOp sql_query, .commitOp])

/-- Embedding of `test2.py`'s `generate_sql_query`: on success the reply is
stripped and the fence markers removed unconditionally; on LLM exception it
returns `None`. -/
def generate_sql_query (llm : Except PyStr PyStr) : Option PyStr :=
  match llm with
  | .error _ => none
  | .ok content =>
    some (pyStrip (pyReplace (pyReplace (pyStrip content) ("```sql".data) []) ("```".data) []))

/-- Embedding of `test2.py`'s `generate_natural_response`: stripped LLM
reply, or on exception an apology string carrying the message. -/
def generate_natural_response (llm : Except PyStr PyStr) : PyStr :=
  match llm with
  | .ok content => pyStrip content
  | .error e => "❌ Failed to generate response: ".data ++ e

/-- Embedding of `test2.py`'s `classification`: the LLM reply's content,
stripped and lowercased, whatever it is; on LLM exception the literal
label "unknown". -/
def classification (llm : Except PyStr PyStr) : PyStr :=
  match llm with
  | .ok content => pyLower (pyStrip content)
  | .error _ => "unknown".data

/-- Pipeline stages recorded by the `test2.py` handler's trace. -/
inductive Ev where
  | classifyCall : Ev
  | greetCall : Ev
  | genCall : Ev
  | execCall : Ev
  | narrCall : Ev
deriving DecidableEq

/-- The success body `{question, sql_query, results, response}` returned by
`test2.py`'s handler; on the greeting branch `sql_query` and `results` are
`None`. -/
structure ChatBody (α : Type) where
  question : PyStr
  sql_query : Option PyStr
  results : Option (QueryResult α)
  response : PyStr
deriving DecidableEq

/-- The outcome of `test2.py`'s handler: a returned body, a raised
`HTTPException`, or an exception that propagates uncaught (the
`greeting_response` LLM call has no `try`). -/
inductive Outcome (α : Type) where
  | body : ChatBody α → Outcome α
  | httpExc : Nat → PyStr → Outcome α
  | uncaught : PyStr → Outcome α
deriving DecidableEq

/-- The per-request oracle environment for `test2.py`: whether the global
`engine` is initialized and the outcomes of the five possible outbound
calls (classification LLM, greeting LLM, SQL-generation LLM, database
driver, narration LLM). -/
structure Env (α : Type) where
  engineSome : Bool
  llmClassify : Except PyStr PyStr
  llmGreet : Except PyStr PyStr
  llmGen : Except PyStr PyStr
  conn : DBConn α
  llmNarr : Except PyStr PyStr

/-- The test `isinstance(results, dict) and results.get("error")` of
`test2.py`'s `ask_database`: it raises only when the "error" key is present
AND its value is truthy, i.e. a non-empty message. -/
def errDetail {α : Type} : QueryResult α → Option PyStr
  | .error m => if m.isEmpty then none else some m
  | _ => none

/-- Embedding of `test2.py`'s `ask_database`, paired with its stage trace. -/
def ask_database {α : Type} (env : Env α) (user_question : PyStr) :
    Outcome α × List Ev :=
  if env.engineSome = false then
    (.httpExc 500 ("DB not initialized.".data), [])
  else
    match generate_sql_query env.llmGen with
    | none => (.httpExc 500 ("Failed to generate SQL".data), [.genCall])
    | some sql_query =>
      if sql_query.isEmpty then
        (.httpExc 500 ("Failed to generate SQL".data), [.genCall])
      else
        match errDetail (execute_sql_query env.conn sql_query).1 with
        | some m => (.httpExc 500 m, [.genCall, .execCall])
        | none =>
          (.body ⟨user_question, some sql_query,
                  some (execute_sql_query env.conn sql_query).1,
                  generate_natural_response env.llmNarr⟩,
           [.genCall, .execCall, .narrCall])

/-- Embedding of `test2.py`'s `handle_classification`, paired with its
stage trace.  On the greeting branch the `greeting_response` LLM call is
uncaught, so an exception there propagates; on its success the handler
returns the body with `None` sql_query and `None` results and the stripped
greeting reply.  A label other than the two known ones raises
`HTTPException(400)`. -/
def handle_classification {α : Type} (env : Env α) (user_question : PyStr) :
    Outcome α × List Ev :=
  let label := classification env.llmClassify
  if label = "greeting".data then
    match env.llmGreet with
    | .error e => (.uncaught e, [.classifyCall, .greetCall])
    | .ok g =>
      (.body ⟨user_question, none, none, pyStrip g⟩, [.classifyCall, .greetCall])
  else if label = "data_query".data then
    let asked := ask_database env user_question
    (asked.1, .classifyCall :: asked.2)
  else
    (.httpExc 400 ("Unknown classification result.".data), [.classifyCall])

end Test2

/-- Configuration assembled from the environment at startup of `main.py`:
the six variables it reads. -/
structure Config where
  openaiApiKey : PyStr
  dbHost : PyStr
  dbPort : PyStr
  dbUser : PyStr
  dbPassword : PyStr
  dbName : PyStr
deriving DecidableEq

/-- Python truthiness of an `os.getenv` result: `None` and the empty string
are falsy. -/
def truthyOpt : Option PyStr → Bool
  | none => false
  | some s => !s.isEmpty

/-- Python `", ".join`. -/
def joinComma : List PyStr → PyStr
  | [] => []
  | [x] => x
  | x :: xs => x ++ ", ".data ++ joinComma xs

/-- The `missing_vars` list comprehension of `main.py`: the names, in the
fixed order of the source, of the required variables whose value is falsy. -/
def missing_vars (env : PyStr → Option PyStr) : List PyStr :=
  (([("OPENAI_API_KEY".data, env ("OPENAI_API_KEY".data)),
     ("DB_USER".data, env ("DB_USER".data)),
     ("DB_PASSWORD".data, env ("DB_PASSWORD".data)),
     ("DB_NAME".data, env ("DB_NAME".data))].filter
       (fun p => !truthyOpt p.2)).map Prod.fst)

/-- Embedding of `main.py`'s module-level environment loading and
validation (lines 42-60): reads the six variables, applying the defaults
for `DB_HOST` and `DB_PORT`, and raises `ValueError` naming the missing
required variables when any of the four required ones is absent or empty —
in that case no configuration is produced at all. -/
def load_config (env : PyStr → Option PyStr) : Except PyStr Config :=
  if (missing_vars env).isEmpty then
    .ok ⟨(env ("OPENAI_API_KEY".data)).getD [],
         (env ("DB_HOST".data)).getD ("localhost".data),
         (env ("DB_PORT".data)).getD ("3306".data),
         (env ("DB_USER".data)).getD [],
         (env ("DB_PASSWORD".data)).getD [],
         (env ("DB_NAME".data)).getD []⟩
  else
    .error ("❌ Missing required environment variables: ".data ++ joinComma (missing_vars env))

/-! Concrete fixtures used by the witness theorems. -/

/-- A connection whose `execute` succeeds with a one-row, one-column result
set and rowcount 1. -/
def connOk3 : DBConn Int :=
  ⟨fun _ => .ok ⟨[[3]], ["COUNT(DISTINCT maid)".data], 1⟩, .ok ()⟩

/-- A connection whose `execute` raises a `SQLAlchemyError`. -/
def connRaise : DBConn Int :=
  ⟨fun _ => .error (.sqlalchemy ("boom".data)), .ok ()⟩

/-- A connection whose `execute` succeeds with an empty result set and
rowcount 5, and whose `commit` succeeds. -/
def connUpdate : DBConn Int :=
  ⟨fun _ => .ok ⟨[], [], 5⟩, .ok ()⟩

/-- C1: for every SQL text, the executor's output is exactly one of a
non-error result or an error descriptor — never both, never neither — and
every driver exception (from `execute` in either variant, or from `commit`)
is caught and returned as an error descriptor carrying the driver's
message, not propagated. -/
theorem executor_exactly_one_of_results_error {α : Type}
    (conn : DBConn α) (sql_query : PyStr) :
    (((Main.execute_sql_query conn sql_query).1.isError = true ∧
      (Main.execute_sql_query conn sql_query).1.isOk = false) ∨
     ((Main.execute_sql_query conn sql_query).1.isError = false ∧
      (Main.execute_sql_query conn sql_query).1.isOk = true)) ∧
    (∀ m, conn.execRes sql_query = .error (.sqlalchemy m) →
       (Main.execute_sql_query conn sql_query).1 =
         .error ("SQL execution error: ".data ++ m)) ∧
    (∀ m, conn.execRes sql_query = .error (.other m) →
       (Main.execute_sql_query conn sql_query).1 =
         .error ("Unexpected error: ".data ++ m)) ∧
    (∀ r e, conn.execRes sql_query = .ok r → Main.isSelectQuery sql_query = false →
       conn.commitRes = .error e →
       (Main.execute_sql_query conn sql_query).1 = .error (Main.sqlExcMessage e)) ∧
    (((Test2.execute_sql_query conn sql_query).1.isError = true ∧
      (Test2.execute_sql_query conn sql_query).1.isOk = false) ∨
     ((Test2.execute_sql_query conn sql_query).1.isError = false ∧
      (Test2.execute_sql_query conn sql_query).1.isOk = true)) ∧
    (∀ e, conn.execRes sql_query = .error e →
       (Test2.execute_sql_query conn sql_query).1 = .error (Test2.excStr e)) := by
  refine ⟨?_, ?_, ?_, ?_, ?_, ?_⟩
  · cases h : conn.execRes sql_query with
    | error e =>
      simp [Main.execute_sql_query, h, QueryResult.isError, QueryResult.isOk]
    | ok r =>
      by_cases hs : Main.isSelectQuery sql_query
      · simp [Main.execute_sql_query, h, hs, QueryResult.isError, QueryResult.isOk]
      · cases hc : conn.commitRes with
        | error e =>
          simp [Main.execute_sql_query, h, hs, hc, QueryResult.isError, QueryResult.isOk]
        | ok u =>
          simp [Main.execute_sql_query, h, hs, hc, QueryResult.isError, QueryResult.isOk]
  · intro m h
    simp [Main.execute_sql_query, h, Main.sqlExcMessage]
  · intro m h
    simp [Main.execute_sql_query, h, Main.sqlExcMessage]
  · intro r e h hs hc
    simp [Main.execute_sql_query, h, hs, hc]
  · cases h : conn.execRes sql_query with
    | error e =>
      simp [Test2.execute_sql_query, h, QueryResult.isError, QueryResult.isOk]
    | ok r =>
      by_cases hs : Test2.isSelectQuery sql_query
      · simp [Test2.execute_sql_query, h, hs, QueryResult.isError, QueryResult.isOk]
      · cases hc : conn.commitRes with
        | error e =>
          simp [Test2.execute_sql_query, h, hs, hc, QueryResult.isError, QueryResult.isOk]
        | ok u =>
          simp [Test2.execute_sql_query, h, hs, hc, QueryResult.isError, QueryResult.isOk]
  · intro e h
    simp [Test2.execute_sql_query, h]

/-- Witness for C1 at a concrete raising connection: the driver exception
surfaces as the error descriptor with the driver's message embedded. -/
theorem executor_exactly_one_of_results_error_witness :
    connRaise.execRes ("SELECT 1".data) = .error (.sqlalchemy ("boom".data)) ∧
    (Main.execute_sql_query connRaise ("SELECT 1".data)).1 =
      .error ("SQL execution error: ".data ++ "boom".data) :=
  ⟨rfl,
   (executor_exactly_one_of_results_error connRaise ("SELECT 1".data)).2.1
     ("boom".data) rfl⟩

/-- C2: when `execute` succeeds, the executor branches solely on the
case/whitespace-insensitive SELECT test: on a SELECT it fetches all rows
and returns the ordered column-to-value records, whose key order is the
result-set column order; otherwise it commits (never fetching) and returns
the status record reporting the affected-row count. -/
theorem executor_select_vs_write_branch {α : Type}
    (conn : DBConn α) (sql_query : PyStr) (r : DBResult α)
    (hdb : conn.execRes sql_query = .ok r) :
    (Main.isSelectQuery sql_query = true →
       Main.execute_sql_query conn sql_query =
         (.records (toRecords r.columns r.rows),
          [.executeOp sql_query, .fetchallOp, .keysOp]) ∧
       (∀ row ∈ r.rows, row.length = r.columns.length →
          ∀ rec ∈ toRecords r.columns [row], rec.map Prod.fst = r.columns)) ∧
    (Main.isSelectQuery sql_query = false →
       DBOp.fetchallOp ∉ (Main.execute_sql_query conn sql_query).2 ∧
       DBOp.commitOp ∈ (Main.execute_sql_query conn sql_query).2 ∧
       (conn.commitRes = .ok () →
          Main.execute_sql_query conn sql_query =
            (.message (Main.rowsAffectedMessage r.rowcount),
             [.executeOp sql_query, .commitOp]))) := by
  constructor
  · intro hs
    constructor
    · simp [Main.execute_sql_query, hdb, hs]
    · intro row _ hlen rec hrec
      simp only [toRecords, List.map_cons, List.map_nil, List.mem_singleton] at hrec
      subst hrec
      exact List.map_fst_zip r.columns row (le_of_eq hlen.symm)
  · intro hs
    cases hc : conn.commitRes with
    | error e =>
      refine ⟨?_, ?_, ?_⟩
      · simp [Main.execute_sql_query, hdb, hs, hc]
      · simp [Main.execute_sql_query, hdb, hs, hc]
      · intro hok
        exact Except.noConfusion hok
    | ok u =>
      refine ⟨?_, ?_, ?_⟩
      · simp [Main.execute_sql_query, hdb, hs, hc]
      · simp [Main.execute_sql_query, hdb, hs, hc]
      · intro _
        simp [Main.execute_sql_query, hdb, hs, hc]

/-- Witness for C2 at the spec's concrete example: the text
`UPDATE nld_table SET age=30` takes the write branch, commits without any
fetch, and returns the row-count status record. -/
theorem executor_select_vs_write_branch_witness :
    connUpdate.execRes ("UPDATE nld_table SET age=30".data) = .ok ⟨[], [], 5⟩ ∧
    Main.isSelectQuery ("UPDATE nld_table SET age=30".data) = false ∧
    (DBOp.fetchallOp ∉
       (Main.execute_sql_query connUpdate ("UPDATE nld_table SET age=30".data)).2 ∧
     DBOp.commitOp ∈
       (Main.execute_sql_query connUpdate ("UPDATE nld_table SET age=30".data)).2 ∧
     (connUpdate.commitRes = .ok () →
        Main.execute_sql_query connUpdate ("UPDATE nld_table SET age=30".data) =
          (.message (Main.rowsAffectedMessage 5),
           [.executeOp ("UPDATE nld_table SET age=30".data), .commitOp]))) :=
  ⟨rfl, by decide,
   (executor_select_vs_write_branch connUpdate ("UPDATE nld_table SET age=30".data)
      ⟨[], [], 5⟩ rfl).2 (by decide)⟩

/-- C3: markdown code fences surrounding the generated query are stripped:
the reply wrapped in sql-tagged fences yields exactly `SELECT 1`, and so
does the reply wrapped in plain fences. -/
theorem generator_fence_stripping :
    Main.generate_sql_query (Except.ok ("```sql\nSELECT 1\n```".data)) =
      some ("SELECT 1".data) ∧
    Main.generate_sql_query (Except.ok ("```\nSELECT 1\n```".data)) =
      some ("SELECT 1".data) := by
  decide

/-- A request environment in which the SQL-generation LLM call raises. -/
def envGenFail : Main.Env Int :=
  ⟨true, .error ("rate limited".data), connOk3, .ok ("ignored".data)⟩

/-- C4: when the SQL-generation LLM call throws, the generator returns the
null signal, the pipeline stops before execution (the executor never runs),
and the handler fails with HTTP 500 instead of a structured response. -/
theorem gen_llm_error_stops_pipeline {α : Type} (env : Main.Env α)
    (message e : PyStr) (heng : env.engineOk = true)
    (hllm : env.llmGen = .error e) :
    Main.generate_sql_query env.llmGen = none ∧
    Main.chat env message =
      (.httpError 500 ("Failed to generate SQL query".data), [Main.PipeEv.genCall]) ∧
    (∀ s, Main.PipeEv.execCall s ∉ (Main.chat env message).2) := by
  have hg : Main.generate_sql_query env.llmGen = none := by
    simp [Main.generate_sql_query, hllm]
  refine ⟨hg, ?_, ?_⟩
  · simp [Main.chat, heng, hg]
  · intro s
    simp [Main.chat, heng, hg]

/-- Witness for C4 at a concrete environment whose generation LLM call
raises: null signal and HTTP 500 with no executor call in the trace. -/
theorem gen_llm_error_stops_pipeline_witness :
    envGenFail.engineOk = true ∧
    Main.generate_sql_query envGenFail.llmGen = none ∧
    Main.chat envGenFail ("how many users".data) =
      (.httpError 500 ("Failed to generate SQL query".data), [Main.PipeEv.genCall]) :=
  ⟨rfl,
   (gen_llm_error_stops_pipeline envGenFail ("how many users".data)
      ("rate limited".data) rfl rfl).1,
   (gen_llm_error_stops_pipeline envGenFail ("how many users".data)
      ("rate limited".data) rfl rfl).2.1⟩

/-- A request environment in which generation and execution succeed but the
narration LLM call raises. -/
def envNarrFail : Main.Env Int :=
  ⟨true, .ok ("SELECT 1".data), connOk3, .error ("narration model down".data)⟩

/-- C8: in the primary variant, a narration-stage LLM exception after
successful generation and execution is not a hard failure: the narrator
returns the error string, which becomes the `response` value of a normal
200 success body. -/
theorem narrator_error_still_success_body {α : Type} (env : Main.Env α)
    (message sql_query e : PyStr) (heng : env.engineOk = true)
    (hgen : Main.generate_sql_query env.llmGen = some sql_query)
    (hne : sql_query.isEmpty = false)
    (hexec : (Main.execute_sql_query env.conn sql_query).1.isError = false)
    (hnarr : env.llmNarr = .error e) :
    Main.chat env message =
      (.success message sql_query (Main.execute_sql_query env.conn sql_query).1
         ("Error generating response: ".data ++ e),
       [.genCall, .execCall sql_query, .narrCall]) := by
  have hdetail : Main.errDetail (Main.execute_sql_query env.conn sql_query).1 = none := by
    cases hq : (Main.execute_sql_query env.conn sql_query).1 <;>
      simp_all [Main.errDetail, QueryResult.isError]
  simp [Main.chat, heng, hgen, hne, hdetail, Main.generate_natural_response, hnarr]

/-- Witness for C8 at a concrete environment: the 200 body carries the
narrator's error string as its `response` value. -/
theorem narrator_error_still_success_body_witness :
    envNarrFail.engineOk = true ∧
    Main.generate_sql_query envNarrFail.llmGen = some ("SELECT 1".data) ∧
    ("SELECT 1".data).isEmpty = false ∧
    (Main.execute_sql_query envNarrFail.conn ("SELECT 1".data)).1.isError = false ∧
    envNarrFail.llmNarr = .error ("narration model down".data) ∧
    Main.chat envNarrFail ("how many users".data) =
      (.success ("how many users".data) ("SELECT 1".data)
         (Main.execute_sql_query envNarrFail.conn ("SELECT 1".data)).1
         ("Error generating response: ".data ++ "narration model down".data),
       [.genCall, .execCall ("SELECT 1".data), .narrCall]) :=
  ⟨rfl, by decide, by decide, by decide, rfl,
   narrator_error_still_success_body envNarrFail ("how many users".data)
     ("SELECT 1".data) ("narration model down".data) rfl (by decide) (by decide)
     (by decide) rfl⟩

/-- C10: in the primary variant, fence stripping triggers only on a fence
prefix: when the trimmed LLM reply does not begin with three backticks, the
generator returns the trimmed reply verbatim, fences appearing later in the
text included. -/
theorem generator_no_fence_prefix_verbatim (content : PyStr)
    (h : "```".data.isPrefixOf (pyStrip content) = false) :
    Main.generate_sql_query (Except.ok content) = some (pyStrip content) := by
  have h6 : "```sql".data.isPrefixOf (pyStrip content) = false := by
    by_contra hcon
    rw [Bool.not_eq_false, List.isPrefixOf_iff_prefix] at hcon
    have h3 : "```".data <+: "```sql".data := by decide
    have : "```".data.isPrefixOf (pyStrip content) = true :=
      List.isPrefixOf_iff_prefix.mpr (h3.trans hcon)
    rw [this] at h
    cases h
  simp [Main.generate_sql_query, h, h6]

/-- Witness for C10: a reply with explanatory prose before the code block
is returned trimmed but otherwise untouched — the fences survive. -/
theorem generator_no_fence_prefix_verbatim_witness :
    "```".data.isPrefixOf
      (pyStrip ("Here is the query:\n```sql\nSELECT 1\n```".data)) = false ∧
    Main.generate_sql_query
        (Except.ok ("Here is the query:\n```sql\nSELECT 1\n```".data)) =
      some (pyStrip ("Here is the query:\n```sql\nSELECT 1\n```".data)) :=
  ⟨by decide,
   generator_no_fence_prefix_verbatim
     ("Here is the query:\n```sql\nSELECT 1\n```".data) (by decide)⟩

/-- A classifier-variant environment where the classification LLM labels the
message a greeting and the greeting LLM replies politely. -/
def envGreet : Test2.Env Int :=
  ⟨true, .ok ("Greeting".data), .ok ("Glad I could help!".data),
   .ok ("unused".data), connOk3, .ok ("unused".data)⟩

/-- C5: in the classifier-enabled variant, whenever the classification
result is the greeting label, the handler never invokes the SQL generator
or the executor, and (when the second, greeting LLM call succeeds) returns
its reply with null `sql_query` and null `results`. -/
theorem greeting_branch_skips_sql {α : Type} (env : Test2.Env α)
    (user_question : PyStr)
    (hcls : Test2.classification env.llmClassify = "greeting".data) :
    (Test2.Ev.genCall ∉ (Test2.handle_classification env user_question).2 ∧
     Test2.Ev.execCall ∉ (Test2.handle_classification env user_question).2) ∧
    (∀ g, env.llmGreet = .ok g →
       Test2.handle_classification env user_question =
         (.body ⟨user_question, none, none, pyStrip g⟩,
          [Test2.Ev.classifyCall, Test2.Ev.greetCall])) := by
  constructor
  · cases hg : env.llmGreet <;>
      simp [Test2.handle_classification, hcls, hg]
  · intro g hg
    simp [Test2.handle_classification, hcls, hg]

/-- Witness for C5 at a concrete environment: the input `thanks!` routed to
the greeting branch returns the greeting reply with null query and results,
and no generator or executor call appears in the trace. -/
theorem greeting_branch_skips_sql_witness :
    Test2.classification envGreet.llmClassify = "greeting".data ∧
    (Test2.Ev.genCall ∉ (Test2.handle_classification envGreet ("thanks!".data)).2 ∧
     Test2.Ev.execCall ∉ (Test2.handle_classification envGreet ("thanks!".data)).2) ∧
    Test2.handle_classification envGreet ("thanks!".data) =
      (.body ⟨("thanks!".data), none, none, pyStrip ("Glad I could help!".data)⟩,
       [Test2.Ev.classifyCall, Test2.Ev.greetCall]) :=
  ⟨by decide,
   (greeting_branch_skips_sql envGreet ("thanks!".data) (by decide)).1,
   (greeting_branch_skips_sql envGreet ("thanks!".data) (by decide)).2
     ("Glad I could help!".data) rfl⟩

/-- A classifier-variant environment where the classification LLM call
raises. -/
def envClsFail : Test2.Env Int :=
  ⟨true, .error ("timeout".data), .ok ("unused".data),
   .ok ("unused".data), connOk3, .ok ("unused".data)⟩

/-- C6: when the classification LLM call throws, the classifier returns the
literal label `unknown` and the handler raises HTTP 400 with no SQL
generation or execution. -/
theorem classification_error_http400 {α : Type} (env : Test2.Env α)
    (user_question e : PyStr) (h : env.llmClassify = .error e) :
    Test2.classification env.llmClassify = "unknown".data ∧
    Test2.handle_classification env user_question =
      (.httpExc 400 ("Unknown classification result.".data),
       [Test2.Ev.classifyCall]) := by
  have hc : Test2.classification env.llmClassify = "unknown".data := by
    simp [Test2.classification, h]
  refine ⟨hc, ?_⟩
  simp [Test2.handle_classification, hc]

/-- Witness for C6 at a concrete environment whose classification LLM call
raises: literal `unknown`, HTTP 400, and a trace holding only the
classification call. -/
theorem classification_error_http400_witness :
    envClsFail.llmClassify = .error ("timeout".data) ∧
    Test2.classification envClsFail.llmClassify = "unknown".data ∧
    Test2.handle_classification envClsFail ("how many users".data) =
      (.httpExc 400 ("Unknown classification result.".data),
       [Test2.Ev.classifyCall]) :=
  ⟨rfl,
   (classification_error_http400 envClsFail ("how many users".data)
      ("timeout".data) rfl).1,
   (classification_error_http400 envClsFail ("how many users".data)
      ("timeout".data) rfl).2⟩

/-- Counterexample to C7 as stated: with no LLM failure, the classifier can
hand the caller a third label — it returns the LLM reply verbatim (trimmed
and lowercased), here `banana`, which is neither `greeting` nor
`data_query`. -/
theorem classification_third_label_cex :
    Test2.classification (Except.ok ("banana".data)) = "banana".data ∧
    ¬ (Test2.classification (Except.ok ("banana".data)) = "greeting".data ∨
       Test2.classification (Except.ok ("banana".data)) = "data_query".data) := by
  decide

/-- A classifier-variant environment whose classification LLM replies with
a label outside the two-label set. -/
def envThirdLabel : Test2.Env Int :=
  ⟨true, .ok ("banana".data), .ok ("unused".data),
   .ok ("unused".data), connOk3, .ok ("unused".data)⟩

/-- C7 (amended): the two-label restriction is an instruction to the LLM,
not enforced by the classifier, which passes the trimmed, lowercased LLM
reply to the caller unchanged; so for every successful classification call,
either that reply is one of the two labels, or the caller receives a third
label and rejects the request with HTTP 400. -/
theorem classification_label_or_http400 {α : Type} (env : Test2.Env α)
    (user_question content : PyStr) (h : env.llmClassify = .ok content) :
    Test2.classification env.llmClassify = pyLower (pyStrip content) ∧
    (pyLower (pyStrip content) = "greeting".data ∨
     pyLower (pyStrip content) = "data_query".data ∨
     Test2.handle_classification env user_question =
       (.httpExc 400 ("Unknown classification result.".data),
        [Test2.Ev.classifyCall])) := by
  have hc : Test2.classification env.llmClassify = pyLower (pyStrip content) := by
    simp [Test2.classification, h]
  refine ⟨hc, ?_⟩
  by_cases h1 : pyLower (pyStrip content) = "greeting".data
  · exact Or.inl h1
  by_cases h2 : pyLower (pyStrip content) = "data_query".data
  · exact Or.inr (Or.inl h2)
  · refine Or.inr (Or.inr ?_)
    simp [Test2.handle_classification, hc, h1, h2]

/-- Witness for the amended C7 at a concrete environment: the non-compliant
reply `banana` reaches the caller and is rejected with HTTP 400. -/
theorem classification_label_or_http400_witness :
    envThirdLabel.llmClassify = Except.ok ("banana".data) ∧
    (Test2.classification envThirdLabel.llmClassify =
       pyLower (pyStrip ("banana".data)) ∧
     (pyLower (pyStrip ("banana".data)) = "greeting".data ∨
      pyLower (pyStrip ("banana".data)) = "data_query".data ∨
      Test2.handle_classification envThirdLabel ("hello".data) =
        (.httpExc 400 ("Unknown classification result.".data),
         [Test2.Ev.classifyCall]))) :=
  ⟨rfl,
   classification_label_or_http400 envThirdLabel ("hello".data)
     ("banana".data) rfl⟩

/-- C9: startup validation — the four required variables are checked for
absence or emptiness, the raised error names exactly the missing ones, in
source order, no configuration is produced when any is missing, and
`DB_HOST`/`DB_PORT` instead default to `localhost`/`3306`. -/
theorem config_env_validation (env : PyStr → Option PyStr) :
    (missing_vars env =
      (if truthyOpt (env ("OPENAI_API_KEY".data)) then [] else [("OPENAI_API_KEY".data)]) ++
      (if truthyOpt (env ("DB_USER".data)) then [] else [("DB_USER".data)]) ++
      (if truthyOpt (env ("DB_PASSWORD".data)) then [] else [("DB_PASSWORD".data)]) ++
      (if truthyOpt (env ("DB_NAME".data)) then [] else [("DB_NAME".data)])) ∧
    ((missing_vars env).isEmpty = false →
       load_config env =
         .error ("❌ Missing required environment variables: ".data ++
           joinComma (missing_vars env))) ∧
    ((missing_vars env).isEmpty = true ↔
       (truthyOpt (env ("OPENAI_API_KEY".data)) = true ∧
        truthyOpt (env ("DB_USER".data)) = true ∧
        truthyOpt (env ("DB_PASSWORD".data)) = true ∧
        truthyOpt (env ("DB_NAME".data)) = true)) ∧
    (∀ cfg, load_config env = .ok cfg →
       cfg.dbHost = (env ("DB_HOST".data)).getD ("localhost".data) ∧
       cfg.dbPort = (env ("DB_PORT".data)).getD ("3306".data) ∧
       (missing_vars env).isEmpty = true) := by
  cases h1 : truthyOpt (env ("OPENAI_API_KEY".data)) <;>
  cases h2 : truthyOpt (env ("DB_USER".data)) <;>
  cases h3 : truthyOpt (env ("DB_PASSWORD".data)) <;>
  cases h4 : truthyOpt (env ("DB_NAME".data)) <;>
    refine ⟨?_, ?_, ?_, ?_⟩ <;>
      simp_all [missing_vars, load_config, joinComma]

/-- An environment map missing `OPENAI_API_KEY` and `DB_NAME`. -/
def envMissing : PyStr → Option PyStr :=
  fun n =>
    if n = "DB_USER".data then some ("root".data)
    else if n = "DB_PASSWORD".data then some ("pw".data)
    else none

/-- An environment map with every variable set except `DB_HOST` and
`DB_PORT`. -/
def envFull : PyStr → Option PyStr :=
  fun n =>
    if n = "DB_HOST".data then none
    else if n = "DB_PORT".data then none
    else some ("x".data)

/-- Witness for C9 at two concrete environment maps: with two required
variables missing, loading raises the error naming them; with everything
required present but no `DB_HOST`/`DB_PORT`, the defaults apply. -/
theorem config_env_validation_witness :
    ((missing_vars envMissing).isEmpty = false ∧
     load_config envMissing =
       .error ("❌ Missing required environment variables: ".data ++
         joinComma (missing_vars envMissing))) ∧
    (load_config envFull =
       .ok ⟨("x".data), ("localhost".data), ("3306".data),
            ("x".data), ("x".data), ("x".data)⟩ ∧
     (Config.dbHost ⟨("x".data), ("localhost".data), ("3306".data),
                     ("x".data), ("x".data), ("x".data)⟩ =
        (envFull ("DB_HOST".data)).getD ("localhost".data) ∧
      Config.dbPort ⟨("x".data), ("localhost".data), ("3306".data),
                     ("x".data), ("x".data), ("x".data)⟩ =
        (envFull ("DB_PORT".data)).getD ("3306".data) ∧
      (missing_vars envFull).isEmpty = true)) :=
  ⟨⟨by decide, (config_env_validation envMissing).2.1 (by decide)⟩,
   ⟨rfl,
    (config_env_validation envFull).2.2.2
      ⟨("x".data), ("localhost".data), ("3306".data),
       ("x".data), ("x".data), ("x".data)⟩ rfl⟩⟩
